import Mathlib

/-!
Shallow embedding of two Linux drivers:
  drivers/leds/leds-bd65b60.c (ROHM BD65B60 backlight LED driver)
  drivers/power/supply/fan5404x_charger.c (ON Semiconductor FAN5404x charger)

Register traffic is modelled as a trace of bus operations; register and
error values are naturals / integers, mirroring the C code line by line.
-/

namespace BD65B60

/-- Register addresses, from enum bd65b60_regs. -/
def REG_SFTRST : Nat := 0x00

def REG_COMSET1 : Nat := 0x01

def REG_COMSET2 : Nat := 0x02

def REG_LEDSEL : Nat := 0x03

def REG_ILED : Nat := 0x05

def REG_CTRLSET : Nat := 0x07

def REG_SLEWSET : Nat := 0x08

def REG_PON : Nat := 0x0E

/-- Field mask PWMEN_MASK. -/
def PWMEN_MASK : Nat := 0x20

/-- Field mask OVP_MASK. -/
def OVP_MASK : Nat := 0x18

/-- Field mask LEDSEL_MASK. -/
def LEDSEL_MASK : Nat := 0x05

/-- Value BD65B60_PWM_ENABLE from enum bd65b60_pwm_ctrl. -/
def BD65B60_PWM_ENABLE : Nat := 0x20

/-- Value BD65B60_DEFAULT_OVP_VAL = BD65B60_35V_OVP. -/
def BD65B60_DEFAULT_OVP_VAL : Nat := 0x10

/-- Enum bd65b60_state: OFF = 0, ON = 1, KEEP = 2. -/
inductive LedState where
| OFF
| ON
| KEEP
deriving DecidableEq, Repr

/-- Numeric value of the C enum constant. -/
def LedState.toNat : LedState → Nat
| .OFF => 0
| .ON => 1
| .KEEP => 2

/-- Bus operations issued through the regmap: plain register write and
masked read-modify-write update. -/
inductive Op where
| write (reg val : Nat)
| updateBits (reg mask val : Nat)
deriving DecidableEq, Repr

/-- Trace of bus operations issued by bd65b60_init
(leds-bd65b60.c lines 102-124): soft reset unless state is KEEP, then the
three masked updates, then the power-on write of
(led->state ? BD65B60_ON : BD65B60_OFF), where the C conditional tests the
numeric enum value for being nonzero. -/
def bd65b60_init (state : LedState) (ovp sel : Nat) : List Op :=
(if state ≠ LedState.KEEP then [Op.write REG_SFTRST 0x01] else []) ++
[Op.updateBits REG_COMSET1 OVP_MASK ovp,
 Op.updateBits REG_LEDSEL LEDSEL_MASK sel,
 Op.updateBits REG_CTRLSET PWMEN_MASK BD65B60_PWM_ENABLE,
 Op.write REG_PON (if state.toNat ≠ 0 then 1 else 0)]

/-- Trace of bus operations and resulting stored state of
bd65b60_brightness_set (leds-bd65b60.c lines 78-100): unconditional
brightness write, then a power-on write of the new state only when it
differs from the stored state, in which case the stored state is updated. -/
def bd65b60_brightness_set (state : LedState) (brightness : Nat) :
    List Op × LedState :=
  let new_state := if brightness ≠ 0 then LedState.ON else LedState.OFF
  (Op.write REG_ILED brightness ::
    (if new_state ≠ state then [Op.write REG_PON new_state.toNat] else []),
   if new_state ≠ state then new_state else state)

/-- Firmware-node view seen by bd65b60_dt_parse: presence of each property
and the outcome of reading it (ok value, or a nonzero errno as returned by
the fwnode read helpers). -/
structure FwNode where
  childPresent : Bool
  selectPresent : Bool
  selectRead : Except Int Nat
  defaultStatePresent : Bool
  defaultStateRead : Except Int String
  ovpPresent : Bool
  ovpRead : Except Int Nat

/-- Configuration fields of struct bd65b60_led filled by bd65b60_dt_parse;
the struct comes from devm_kzalloc, so every field starts at 0. -/
structure Led where
  select : Nat
  state : LedState
  ovp : Nat
deriving DecidableEq, Repr

/-- Stage of bd65b60_dt_parse handling the optional ovp property
(leds-bd65b60.c lines 173-183): sets the default, then on a present
property reads it; the C code returns ret both when the read failed
(ret nonzero) and when the read value has bits outside OVP_MASK
(ret is then 0). -/
def bd65b60_dt_parse_ovp (node : FwNode) (led : Led) : Int × Led :=
  let led : Led := ⟨led.select, led.state, BD65B60_DEFAULT_OVP_VAL⟩
  if node.ovpPresent then
    match node.ovpRead with
    | .error e => (e, led)
    | .ok v =>
      let led : Led := ⟨led.select, led.state, v⟩
      if v &&& OVP_MASK ≠ v then
        (0, led) -- early return of ret, which is 0 here
      else
        (0, led)
  else (0, led)

/-- Stage of bd65b60_dt_parse handling the default-state property
(leds-bd65b60.c lines 152-171): the state defaults to OFF, and the string
is read and matched only when fwnode_property_present is FALSE (the source
tests the negation). -/
def bd65b60_dt_parse_state (node : FwNode) (led : Led) : Int × Led :=
  let led : Led := ⟨led.select, LedState.OFF, led.ovp⟩
  if !node.defaultStatePresent then
    match node.defaultStateRead with
    | .error e => (e, led)
    | .ok s =>
      if s = "keep" then
        bd65b60_dt_parse_ovp node ⟨led.select, LedState.KEEP, led.ovp⟩
      else if s = "on" then
        bd65b60_dt_parse_ovp node ⟨led.select, LedState.ON, led.ovp⟩
      else if s = "off" then
        bd65b60_dt_parse_ovp node ⟨led.select, LedState.OFF, led.ovp⟩
      else
        (-22, led) -- -EINVAL
  else
    bd65b60_dt_parse_ovp node led

/-- Entry point of bd65b60_dt_parse (leds-bd65b60.c lines 126-184),
returning the C return value together with the configuration fields.
Missing child node gives -ENODEV (-19), a missing select property gives
-ENOENT (-2); a select read error returns that error, while a select value
with bits outside LEDSEL_MASK returns ret, which is 0 after a successful
read. -/
def bd65b60_dt_parse (node : FwNode) : Int × Led :=
  let led : Led := ⟨0, LedState.OFF, 0⟩
  if !node.childPresent then (-19, led)
  else if !node.selectPresent then (-2, led)
  else
    match node.selectRead with
    | .error e => (e, led)
    | .ok v =>
      let led : Led := ⟨v, led.state, led.ovp⟩
      if v &&& LEDSEL_MASK ≠ v then
        (0, led) -- early return of ret, which is 0 here
      else
        bd65b60_dt_parse_state node led

end BD65B60

namespace FAN5404X

/-- Register addresses, from enum fan5404x_regs. -/
def FAN5404X_REG_CTRL0 : Nat := 0x00

def FAN5404X_REG_CTRL1 : Nat := 0x01

/-- Field CTRL0_FIELD_STAT = GENMASK(5, 4). -/
def CTRL0_FIELD_STAT : Nat := 0x30

/-- Field CTRL1_FIELD_CE_N = BIT(2). -/
def CTRL1_FIELD_CE_N : Nat := 0x04

/-- Enum fan5404x_status_value. -/
def STATUS_READY : Nat := 0

def STATUS_PWM_EN : Nat := 1

def STATUS_CHARGE_DONE : Nat := 2

def STATUS_FAULT : Nat := 3

/-- Power-supply status constants used by the driver. -/
inductive PsyStatus where
| UNKNOWN
| CHARGING
| DISCHARGING
| NOT_CHARGING
| FULL
deriving DecidableEq, Repr

/-- Decode branch of fan5404x_get_status (fan5404x_charger.c lines 270-277),
run when both register reads succeeded: DISCHARGING by default, overridden
to FULL when the masked STAT field equals STATUS_CHARGE_DONE shifted into
place, and to CHARGING / NOT_CHARGING on STATUS_PWM_EN according to the
CE_N bit of ctrl1. -/
def fan5404x_decode_status (ctrl0 ctrl1 : Nat) : PsyStatus :=
  let status := PsyStatus.DISCHARGING
  let status :=
    if ctrl0 &&& CTRL0_FIELD_STAT = STATUS_CHARGE_DONE <<< 4 then
      PsyStatus.FULL
    else status
  let status :=
    if ctrl0 &&& CTRL0_FIELD_STAT = STATUS_PWM_EN <<< 4 then
      if ctrl1 &&& CTRL1_FIELD_CE_N ≠ 0 then PsyStatus.NOT_CHARGING
      else PsyStatus.CHARGING
    else status
  status

/-- Model of fan5404x_get_status (fan5404x_charger.c lines 260-283): each
regmap_read outcome is a pair of the returned errno and the value stored
through the out pointer; the two errnos are combined with the bitwise or
of the C |= and the decode runs only when the combined error is 0. -/
def fan5404x_get_status (read0 read1 : Int × Nat) : PsyStatus :=
  let err := Int.lor read0.1 read1.1
  if err = 0 then fan5404x_decode_status read0.2 read1.2
  else PsyStatus.UNKNOWN

/-- Model of fan5404x_get_vbus_limit (fan5404x_charger.c lines 227-235).
The result fits uint8_t, as its largest value is (4773 - 4213) / 20 = 28. -/
def fan5404x_get_vbus_limit (voltage_mv : Nat) : Nat :=
  if voltage_mv < 4213 then 0
  else if voltage_mv > 4773 then 7
  else (voltage_mv - 4213) / 20

/-- Model of fan5404x_get_ibus_limit (fan5404x_charger.c lines 237-250).
The final branch of the C chain tests current_ma > 800, which is exactly
the remaining case of its unsigned input, so it is the final else here. -/
def fan5404x_get_ibus_limit (current_ma : Nat) : Nat :=
  if current_ma < 500 then 0
  else if current_ma < 800 then 1
  else if current_ma = 800 then 2
  else 3

end FAN5404X

namespace Codec

/-- Modelled from the spec: a RegisterField is a register address together
with a contiguous bit mask; the source has no codec functions of its own
(the shifted constants are inlined), so the Bitfield Codec of the spec is
reproduced here from its words. -/
structure RegisterField where
  addr : Nat
  mask : Nat
deriving DecidableEq, Repr

/-- Fuel-driven trailing-zero count; the fuel makes the recursion
structural. -/
def ctzAux : Nat → Nat → Nat
| 0, _ => 0
| fuel + 1, n => if n % 2 = 1 ∨ n = 0 then 0 else ctzAux fuel (n / 2) + 1

/-- Number of trailing zero bits of a natural number, the implicit shift of
a field mask. -/
def ctz (n : Nat) : Nat := ctzAux n n

/-- Modelled from the spec: encode shifts the logical value into the bit
positions given by the mask and masks off bits outside the field, silently
truncating values that do not fit. -/
def encode (f : RegisterField) (v : Nat) : Nat := (v <<< ctz f.mask) &&& f.mask

/-- Modelled from the spec: decode extracts and right-shifts the masked
bits. -/
def decode (f : RegisterField) (raw : Nat) : Nat :=
  (raw &&& f.mask) >>> ctz f.mask

theorem ctzAux_pow_mul (s : Nat) :
    ∀ fuel m : Nat, m % 2 = 1 → 2 ^ s * m ≤ fuel →
      ctzAux fuel (2 ^ s * m) = s := by
  induction s with
  | zero =>
    intro fuel m hm _
    simp only [pow_zero, one_mul]
    cases fuel with
    | zero => rfl
    | succ f => simp [ctzAux, hm]
  | succ s ih =>
    intro fuel m hm hle
    have hmpos : 0 < m := by omega
    have hsp : 0 < 2 ^ s := Nat.pos_pow_of_pos s (by omega)
    have hn : 2 ^ (s + 1) * m = 2 * (2 ^ s * m) := by ring
    have hpos : 0 < 2 ^ s * m := Nat.mul_pos hsp hmpos
    rw [hn] at hle ⊢
    cases fuel with
    | zero => omega
    | succ f =>
      have hc : ¬ (2 * (2 ^ s * m) % 2 = 1 ∨ 2 * (2 ^ s * m) = 0) := by omega
      simp only [ctzAux, if_neg hc]
      have hdiv : 2 * (2 ^ s * m) / 2 = 2 ^ s * m := by omega
      rw [hdiv, ih f m hm (by omega)]

/-- Trailing-zero count of a contiguous mask of w set bits starting at bit
s is s. -/
theorem ctz_contiguous_mask (w s : Nat) (hw : 0 < w) :
    ctz ((2 ^ w - 1) <<< s) = s := by
  have hodd : (2 ^ w - 1) % 2 = 1 := by
    obtain ⟨v, rfl⟩ : ∃ v, w = v + 1 := ⟨w - 1, by omega⟩
    have h2 : (2 : Nat) ^ (v + 1) = 2 * 2 ^ v := by ring
    have hvp : 0 < 2 ^ v := Nat.pos_pow_of_pos v (by omega)
    omega
  rw [Nat.shiftLeft_eq, Nat.mul_comm]
  exact ctzAux_pow_mul s (2 ^ s * (2 ^ w - 1)) (2 ^ w - 1) hodd (Nat.le_refl _)

theorem shiftLeft_and_shiftLeft (x y t : Nat) :
    (x <<< t) &&& (y <<< t) = (x &&& y) <<< t := by
  apply Nat.eq_of_testBit_eq
  intro i
  simp only [Nat.testBit_and, Nat.testBit_shiftLeft]
  by_cases h : t ≤ i <;> simp [h]

theorem shiftLeft_shiftRight_cancel (x t : Nat) : (x <<< t) >>> t = x := by
  rw [Nat.shiftLeft_eq, Nat.shiftRight_eq_div_pow]
  exact Nat.mul_div_cancel x (Nat.pos_pow_of_pos t (by omega))

end Codec

namespace FAN5404X

/-- The STAT field of CTRL0 as a RegisterField of the codec. -/
def STAT_FIELD : Codec.RegisterField := ⟨FAN5404X_REG_CTRL0, CTRL0_FIELD_STAT⟩

end FAN5404X

open BD65B60 FAN5404X Codec

/-- C1, counterexample: the claim as stated fails on the code at stored
state KEEP: bd65b60_init concludes with a power-on write of ON (value 1),
because the C conditional (led->state ? ON : OFF) tests the enum value
KEEP = 2 for being nonzero, while the claim demands OFF (value 0) for
every state other than ON. -/
theorem bd65b60_init_keep_final_write_counterexample :
    (bd65b60_init LedState.KEEP 0x10 0x05).getLast? ≠
      some (Op.write REG_PON 0) ∧
    (bd65b60_init LedState.KEEP 0x10 0x05).getLast? =
      some (Op.write REG_PON 1) := by
  decide

/-- C1, amended: for every device, initialize concludes with a write to the
power-on register whose value is ON (1) exactly when the stored state is
not OFF — hence ON also for the pseudo-state KEEP — and OFF (0) only when
the stored state is OFF. -/
theorem bd65b60_init_final_power_write (state : LedState) (ovp sel : Nat) :
    (bd65b60_init state ovp sel).getLast? =
      some (Op.write REG_PON (if state = LedState.OFF then 0 else 1)) := by
  cases state <;> rfl

/-- C7: when the stored state is KEEP, initialize never issues a soft-reset
write; when the stored state is ON, it issues exactly the soft-reset write,
the over-voltage-protection masked update, the channel-select masked
update, the PWM-enable masked update and then a power-on write of ON, in
that order. -/
theorem bd65b60_init_sequence (ovp sel : Nat) :
    (∀ v, Op.write REG_SFTRST v ∉ bd65b60_init LedState.KEEP ovp sel) ∧
    bd65b60_init LedState.ON ovp sel =
      [Op.write REG_SFTRST 0x01,
       Op.updateBits REG_COMSET1 OVP_MASK ovp,
       Op.updateBits REG_LEDSEL LEDSEL_MASK sel,
       Op.updateBits REG_CTRLSET PWMEN_MASK BD65B60_PWM_ENABLE,
       Op.write REG_PON 1] := by
  constructor
  · intro v
    simp [bd65b60_init, REG_SFTRST, REG_PON]
  · rfl

/-- C2, code evaluated at the failing input: the four quoted sample points
hold, but the quantizer is not clamped to the maximum code 7: at 4500 mV it
returns 14 and at 4773 mV it returns 28, exceeding the 3-bit VBUSLIM
field GENMASK(2, 0) whose largest code is 7. -/
theorem fan5404x_get_vbus_limit_not_clamped :
    fan5404x_get_vbus_limit 4000 = 0 ∧
    fan5404x_get_vbus_limit 4213 = 0 ∧
    fan5404x_get_vbus_limit 4233 = 1 ∧
    fan5404x_get_vbus_limit 5000 = 7 ∧
    fan5404x_get_vbus_limit 4500 = 14 ∧
    fan5404x_get_vbus_limit 4773 = 28 := by
  decide

/-- C6: the bus-current-limit classifier is the total 4-step threshold
function: below 500 mA code 0 (including 0 mA), in [500, 800) code 1,
exactly 800 code 2, above 800 code 3, and every input maps to a code of at
most 3. -/
theorem fan5404x_get_ibus_limit_spec (current_ma : Nat) :
    (current_ma < 500 → fan5404x_get_ibus_limit current_ma = 0) ∧
    (500 ≤ current_ma → current_ma < 800 →
      fan5404x_get_ibus_limit current_ma = 1) ∧
    (current_ma = 800 → fan5404x_get_ibus_limit current_ma = 2) ∧
    (800 < current_ma → fan5404x_get_ibus_limit current_ma = 3) ∧
    fan5404x_get_ibus_limit current_ma ≤ 3 := by
  unfold fan5404x_get_ibus_limit
  refine ⟨fun h => ?_, fun h1 h2 => ?_, fun h => ?_, fun h => ?_, ?_⟩ <;>
    (repeat' split) <;> omega

/-- C6, witness: the five sample points of the spec, obtained from the
general theorem. -/
theorem fan5404x_get_ibus_limit_spec_witness :
    fan5404x_get_ibus_limit 499 = 0 ∧ fan5404x_get_ibus_limit 500 = 1 ∧
    fan5404x_get_ibus_limit 799 = 1 ∧ fan5404x_get_ibus_limit 800 = 2 ∧
    fan5404x_get_ibus_limit 801 = 3 :=
  ⟨(fan5404x_get_ibus_limit_spec 499).1 (by decide),
   (fan5404x_get_ibus_limit_spec 500).2.1 (by decide) (by decide),
   (fan5404x_get_ibus_limit_spec 799).2.1 (by decide) (by decide),
   (fan5404x_get_ibus_limit_spec 800).2.2.1 rfl,
   (fan5404x_get_ibus_limit_spec 801).2.2.2.1 (by decide)⟩

/-- C5: set_brightness always writes the brightness register first with the
requested level; a power-on write appears in its trace exactly when the new
state (ON if level > 0, else OFF) differs from the stored state, and then
carries the new state; the stored state afterwards is the new state. In
particular set_brightness 0 from state ON issues the power-on write of OFF
and a second consecutive set_brightness 0 issues only the brightness
write. -/
theorem bd65b60_brightness_set_spec (state : LedState) (level : Nat) :
    ((bd65b60_brightness_set state level).1.head? =
      some (Op.write REG_ILED level)) ∧
    (∀ v, Op.write REG_PON v ∈ (bd65b60_brightness_set state level).1 ↔
      ((if 0 < level then LedState.ON else LedState.OFF) ≠ state ∧
       v = (if 0 < level then LedState.ON else LedState.OFF).toNat)) ∧
    ((bd65b60_brightness_set state level).2 =
      (if 0 < level then LedState.ON else LedState.OFF)) ∧
    (bd65b60_brightness_set LedState.ON 0 =
      ([Op.write REG_ILED 0, Op.write REG_PON 0], LedState.OFF)) ∧
    (bd65b60_brightness_set LedState.OFF 0 =
      ([Op.write REG_ILED 0], LedState.OFF)) := by
  refine ⟨rfl, fun v => ?_, ?_, by decide, by decide⟩ <;>
    rcases Nat.eq_zero_or_pos level with h | h <;>
    [skip; (have h0 : level ≠ 0 := Nat.pos_iff_ne_zero.mp h); skip;
     (have h0 : level ≠ 0 := Nat.pos_iff_ne_zero.mp h)] <;>
    subst_eqs <;>
    cases state <;>
    simp_all [bd65b60_brightness_set, LedState.toNat, REG_ILED, REG_PON]

/-- Any value masked with 0x30 is one of 0, 0x10, 0x20, 0x30. -/
theorem nat_and_48_cases (c : Nat) :
    c &&& 48 = 0 ∨ c &&& 48 = 16 ∨ c &&& 48 = 32 ∨ c &&& 48 = 48 := by
  have hle : c &&& 48 ≤ 48 := Nat.and_le_right
  have hmod : (c &&& 48) % 16 = 0 := by
    have h1 : (c &&& 48) &&& 15 = (c &&& 48) % 16 := by
      have := Nat.and_pow_two_sub_one_eq_mod (c &&& 48) 4
      norm_num at this
      exact this
    have h2 : (c &&& 48) &&& 15 = c &&& (48 &&& 15) := Nat.and_assoc c 48 15
    have h3 : (48 : Nat) &&& 15 = 0 := by decide
    rw [h3, Nat.and_zero] at h2
    omega
  omega

/-- C4: for every pair of register values, the status decoder returns FULL
when the 2-bit STAT field of ctrl0 (extracted by masking and
right-shifting) equals STATUS_CHARGE_DONE regardless of ctrl1, CHARGING
when it equals STATUS_PWM_EN with the CE_N bit of ctrl1 clear,
NOT_CHARGING when it equals STATUS_PWM_EN with CE_N set, and DISCHARGING
for every other STAT value (STATUS_READY or STATUS_FAULT). -/
theorem fan5404x_decode_status_spec (c0 c1 : Nat) :
    fan5404x_decode_status c0 c1 =
      (if (c0 &&& CTRL0_FIELD_STAT) >>> 4 = STATUS_CHARGE_DONE then
         PsyStatus.FULL
       else if (c0 &&& CTRL0_FIELD_STAT) >>> 4 = STATUS_PWM_EN then
         (if c1 &&& CTRL1_FIELD_CE_N = 0 then PsyStatus.CHARGING
          else PsyStatus.NOT_CHARGING)
       else PsyStatus.DISCHARGING) := by
  have e2 : (STATUS_CHARGE_DONE <<< 4 : Nat) = 32 := by decide
  have e1 : (STATUS_PWM_EN <<< 4 : Nat) = 16 := by decide
  rcases nat_and_48_cases c0 with h | h | h | h <;>
    by_cases hc : c1 &&& CTRL1_FIELD_CE_N = 0 <;>
    simp [fan5404x_decode_status, CTRL0_FIELD_STAT,
      show (0x30 : Nat) = 48 from rfl, e1, e2, h, hc,
      Nat.shiftRight_eq_div_pow] <;>
    simp [STATUS_CHARGE_DONE, STATUS_PWM_EN]

/-- Bitwise or of two naturals is zero exactly when both are zero. -/
theorem nat_lor_eq_zero_iff (m n : Nat) : m ||| n = 0 ↔ m = 0 ∧ n = 0 := by
  constructor
  · intro h
    constructor <;> apply Nat.eq_of_testBit_eq <;> intro i <;>
      have hbit := congrArg (fun x => Nat.testBit x i) h <;>
      simp only [Nat.testBit_or, Nat.zero_testBit, Bool.or_eq_false_iff]
        at hbit <;>
      simp [Nat.zero_testBit, hbit]
  · rintro ⟨rfl, rfl⟩
    rfl

/-- Bitwise or of two integers is zero exactly when both are zero. -/
theorem int_lor_eq_zero_iff (a b : Int) :
    Int.lor a b = 0 ↔ a = 0 ∧ b = 0 := by
  cases a with
  | ofNat m =>
    cases b with
    | ofNat n => simp [Int.lor, Int.ofNat_eq_zero, nat_lor_eq_zero_iff]
    | negSucc n => simp [Int.lor]
  | negSucc m =>
    cases b with
    | ofNat n => simp [Int.lor]
    | negSucc n => simp [Int.lor]

/-- C8: read_status returns UNKNOWN whenever either of the two register
reads returns a nonzero errno — the failure surfaces to the caller as that
UNKNOWN result (the source additionally logs it with dev_err) — and when
both reads succeed it returns one of FULL, CHARGING, NOT_CHARGING or
DISCHARGING, never UNKNOWN. -/
theorem fan5404x_get_status_error_spec (e0 e1 : Int) (v0 v1 : Nat) :
    ((e0 ≠ 0 ∨ e1 ≠ 0) →
      fan5404x_get_status (e0, v0) (e1, v1) = PsyStatus.UNKNOWN) ∧
    (e0 = 0 → e1 = 0 →
      (fan5404x_get_status (e0, v0) (e1, v1) ≠ PsyStatus.UNKNOWN ∧
       (fan5404x_get_status (e0, v0) (e1, v1) = PsyStatus.FULL ∨
        fan5404x_get_status (e0, v0) (e1, v1) = PsyStatus.CHARGING ∨
        fan5404x_get_status (e0, v0) (e1, v1) = PsyStatus.NOT_CHARGING ∨
        fan5404x_get_status (e0, v0) (e1, v1) = PsyStatus.DISCHARGING))) := by
  constructor
  · intro h
    unfold fan5404x_get_status
    rw [if_neg]
    intro hz
    rcases (int_lor_eq_zero_iff e0 e1).mp hz with ⟨h0, h1⟩
    rcases h with h | h <;> exact h (by assumption)
  · rintro rfl rfl
    have hz : Int.lor 0 0 = 0 := rfl
    unfold fan5404x_get_status
    rw [if_pos hz]
    unfold fan5404x_decode_status
    refine ⟨?_, ?_⟩ <;> (repeat' split) <;> simp

/-- C8, witness: a failing first read (errno -5) yields UNKNOWN, and two
successful reads (CTRL0 = 0x20, STAT = CHARGE_DONE) do not. -/
theorem fan5404x_get_status_error_spec_witness :
    fan5404x_get_status (-5, 0) (0, 0) = PsyStatus.UNKNOWN ∧
    fan5404x_get_status (0, 0x20) (0, 0) ≠ PsyStatus.UNKNOWN :=
  ⟨(fan5404x_get_status_error_spec (-5) 0 0 0).1 (Or.inl (by decide)),
   ((fan5404x_get_status_error_spec 0 0 0x20 0).2 rfl rfl).1⟩

/-- C9, counterexample: for the charger STAT field (mask 0x30, shift 4)
and value 2, decode of encode gives back 2, but 2 masked with 0x30 is 0
while encode gives 0x20, so the masked round-trip equation of the claim
fails. -/
theorem codec_round_trip_counterexample :
    ¬ (Codec.decode STAT_FIELD (Codec.encode STAT_FIELD 2) &&&
         STAT_FIELD.mask = Codec.encode STAT_FIELD 2) := by
  decide

/-- C9, amended: for every contiguous field mask of w > 0 bits starting at
bit s and every value v, decode of encode returns v truncated to the bit
width of the mask: decode(field, encode(field, v)) = v & ((2 ^ w) - 1).
The masked comparison of the original claim holds only for fields at bit
position 0. -/
theorem codec_round_trip (a w s v : Nat) (hw : 0 < w) :
    Codec.decode ⟨a, (2 ^ w - 1) <<< s⟩
        (Codec.encode ⟨a, (2 ^ w - 1) <<< s⟩ v) =
      v &&& (2 ^ w - 1) := by
  unfold Codec.decode Codec.encode
  simp only [Codec.ctz_contiguous_mask w s hw]
  rw [Nat.and_assoc, Nat.and_self, Codec.shiftLeft_and_shiftLeft,
    Codec.shiftLeft_shiftRight_cancel]

/-- C9, witness: the amended round trip at the charger STAT field
(w = 2, s = 4) with v = 2. -/
theorem codec_round_trip_witness :
    Codec.decode ⟨0, (2 ^ 2 - 1) <<< 4⟩
        (Codec.encode ⟨0, (2 ^ 2 - 1) <<< 4⟩ 2) =
      2 &&& (2 ^ 2 - 1) :=
  codec_round_trip 0 2 4 2 (by decide)

/-- The ovp stage of dt_parse never changes the state field. -/
theorem bd65b60_dt_parse_ovp_state (node : FwNode) (led : Led) :
    (bd65b60_dt_parse_ovp node led).2.state = led.state := by
  unfold bd65b60_dt_parse_ovp
  obtain ⟨c, sp, sr, dp, dr, ovpP, ovpR⟩ := node
  cases ovpP <;> simp
  rcases ovpR with e | v <;> simp

/-- C10: whenever the default-state property is present, configuration
parsing leaves the parsed power state OFF, and it does so without
consulting the property string: the whole parse result is unchanged under
an arbitrary replacement of the string read outcome. Hence ON and KEEP are
never produced from a present default-state property. -/
theorem bd65b60_dt_parse_present_default_state (node : FwNode)
    (r : Except Int String) (h : node.defaultStatePresent = true) :
    (bd65b60_dt_parse node).2.state = LedState.OFF ∧
    bd65b60_dt_parse node =
      bd65b60_dt_parse ⟨node.childPresent, node.selectPresent,
        node.selectRead, node.defaultStatePresent, r, node.ovpPresent,
        node.ovpRead⟩ := by
  obtain ⟨c, sp, sr, dp, dr, ovpP, ovpR⟩ := node
  simp only at h
  subst h
  refine ⟨?_, ?_⟩ <;>
    unfold bd65b60_dt_parse bd65b60_dt_parse_state <;>
    cases c <;> cases sp <;> simp <;>
    rcases sr with e | v <;> simp <;>
    split <;>
      first
        | rfl
        | exact bd65b60_dt_parse_ovp_state _ _

/-- C10, witness: a node whose present default-state property reads as the
string on still parses to state OFF, and swapping the string for keep
leaves the result unchanged. -/
theorem bd65b60_dt_parse_present_default_state_witness :
    (bd65b60_dt_parse ⟨true, true, Except.ok 1, true, Except.ok "on",
       false, Except.ok 0⟩).2.state = LedState.OFF :=
  (bd65b60_dt_parse_present_default_state
    ⟨true, true, Except.ok 1, true, Except.ok "on", false, Except.ok 0⟩
    (Except.ok "keep") rfl).1

/-- C3, code evaluated at the failing inputs: a present select property
whose read succeeds with the out-of-mask value 2 makes bd65b60_dt_parse
return 0 — reporting success to the caller, so device creation proceeds —
and likewise a successful ovp read of the out-of-mask value 4; the claimed
rejection with an error does not happen. -/
theorem bd65b60_dt_parse_out_of_mask_returns_zero :
    (2 &&& LEDSEL_MASK ≠ 2 ∧
     (bd65b60_dt_parse ⟨true, true, Except.ok 2, true, Except.ok "off",
        false, Except.ok 0⟩).1 = 0) ∧
    (4 &&& OVP_MASK ≠ 4 ∧
     (bd65b60_dt_parse ⟨true, true, Except.ok 1, true, Except.ok "off",
        true, Except.ok 4⟩).1 = 0) := by
  decide
